import Mathlib

/-!
Verification development for the OPAL Orchestrator frontend core:
the conversation state controller (`src/frontend/src/app/chat/page.tsx`),
the chat-job poller (`waitForChatJob` in `src/frontend/src/lib/api.ts`),
and the message input guard (`src/frontend/src/components/Chat/MessageInput.tsx`).

The embedding is shallow: TypeScript interfaces become structures, the
React state of the chat page becomes an explicit `ChatState`, each
`setX` updater becomes a pure state transformation, and the polling loop
becomes a recursive function over a stream of fetch outcomes with
explicit elapsed time (fetches are modelled as instantaneous; the only
time that passes is the sleep of `pollInterval` between polls).
JavaScript truthiness on strings and numbers (empty string and zero are
falsy) is modelled explicitly by `jsOrString` and `jsOrNat`.
-/

/-! ## Data model (from the API types module) -/

inductive Role where
  | user
  | assistant
deriving DecidableEq, Repr

structure ChatMessage where
  role : Role
  content : String
deriving DecidableEq, Repr

structure Citation where
  source_document_id : String
  chunk_id : Option String
  quote : String
  source_title : Option String
deriving DecidableEq, Repr

structure RiskItem where
  risk : String
  impact : String
  alternative : Option String
deriving DecidableEq, Repr

structure PlanStepData where
  step_id : String
  objective : String
  recommended_facility : String
  capability_ids : List String
  inputs : List String
  outputs : List String
  constraints : List String
  dependencies : List String
  decision_points : List String
  citations : List Citation
  is_hypothesis : Bool
deriving DecidableEq, Repr

structure OPALPlan where
  goal_summary : String
  assumptions : List String
  steps : List PlanStepData
  open_questions : List String
  risks_and_alternatives : List RiskItem
  created_at : Option String
deriving DecidableEq, Repr

/-- `SearchResult` from the types module.  The floating-point `score`
field and the opaque `metadata` map are omitted: no operation modelled
here reads them. -/
structure SearchResult where
  chunk_id : String
  source_document_id : String
  source_title : String
  text : String
deriving DecidableEq, Repr

structure ChatResponse where
  message : String
  conversation_id : String
  plan : Option OPALPlan
  sources : List SearchResult
deriving DecidableEq, Repr

/-! ## JavaScript truthiness helpers -/

/-- `x || d` for an optional string: the empty string is falsy. -/
def jsOrString (x : Option String) (d : String) : String :=
  match x with
  | some s => if s = "" then d else s
  | none => d

/-- `x || d` for an optional number: zero is falsy. -/
def jsOrNat (x : Option Nat) (d : Nat) : Nat :=
  match x with
  | some n => if n = 0 then d else n
  | none => d

theorem jsOrNat_pos (x : Option Nat) (d : Nat) (hd : 0 < d) : 0 < jsOrNat x d := by
  cases x with
  | none => exact hd
  | some n =>
    by_cases h : n = 0
    · simp [jsOrNat, h, hd]
    · simp [jsOrNat, h]
      omega

/-! ## Conversation state controller (chat page) -/

/-- The welcome message shown at the start of every conversation.  The
content is abbreviated relative to the source text; no property here
inspects the content of the welcome message, only its identity. -/
def WELCOME_MESSAGE : ChatMessage :=
  { role := Role.assistant
    content := "Welcome to the **OPAL Orchestrator**! Tell me about your research goal." }

/-- Fallback assistant text used when a caught error has no message. -/
def FALLBACK_ERROR_CONTENT : String :=
  "Sorry, I encountered an error processing your request. Please try again."

/-- The React state of the chat page component. -/
structure ChatState where
  messages : List ChatMessage
  initialGoalProcessed : Bool
  currentPlan : Option OPALPlan
  sources : List SearchResult
  conversationId : Option String
  isLoading : Bool
  isHistoryOpen : Bool
deriving DecidableEq, Repr

/-- The initial state of the chat page. -/
def initialChatState : ChatState :=
  { messages := [WELCOME_MESSAGE]
    initialGoalProcessed := false
    currentPlan := none
    sources := []
    conversationId := none
    isLoading := false
    isHistoryOpen := false }

/-- Source deduplication inside `handleSendMessage`: build the set of
`chunk_id`s already present, drop incoming sources whose `chunk_id` is
in it, append the rest. -/
def mergeSources (prev incoming : List SearchResult) : List SearchResult :=
  let existing := prev.map (fun s => s.chunk_id)
  let newSources := incoming.filter (fun s => ! existing.contains s.chunk_id)
  prev ++ newSources

/-- The synchronous head of `handleSendMessage`: append the user message
and set the loading flag, before any network call. -/
def appendUserAndLoad (s : ChatState) (content : String) : ChatState :=
  { s with
    messages := s.messages ++ [{ role := Role.user, content := content }]
    isLoading := true }

/-- The success continuation of `handleSendMessage`, applied to whatever
the state is when the poll resolves: conditionally store the
conversation id (truthiness check on the string), append the assistant
message, replace the plan when one is present, merge sources when the
result carries a nonempty list, and (from the cleanup clause) clear the
loading flag.  Each React `setX` updater touches exactly one field and
reads only that field, so the sequential updates are flattened into one
record update. -/
def applyChatResponse (s : ChatState) (resp : ChatResponse) : ChatState :=
  { s with
    conversationId :=
      if resp.conversation_id = "" then s.conversationId else some resp.conversation_id
    messages := s.messages ++ [{ role := Role.assistant, content := resp.message }]
    currentPlan :=
      match resp.plan with
      | some p => some p
      | none => s.currentPlan
    sources :=
      if resp.sources.length > 0 then mergeSources s.sources resp.sources else s.sources
    isLoading := false }

/-- The content of the synthesized assistant error message: the caught
error message when present and truthy, the generic fallback otherwise. -/
def errorMessageContent (msg : Option String) : String :=
  jsOrString msg FALLBACK_ERROR_CONTENT

/-- The catch continuation of `handleSendMessage`: append one assistant
message carrying the failure text, and (from the cleanup clause) clear
the loading flag. -/
def applyChatError (s : ChatState) (msg : Option String) : ChatState :=
  { s with
    messages := s.messages ++ [{ role := Role.assistant, content := errorMessageContent msg }]
    isLoading := false }

/-- The outcome of the submit-and-poll phase of one turn, as seen by the
controller: either the poller resolved with a `ChatResponse`, or some
step threw and the catch block observed `error?.message`. -/
inductive TurnOutcome where
  | success (resp : ChatResponse)
  | failure (msg : Option String)
deriving DecidableEq, Repr

/-- One whole turn of `handleSendMessage`, run without interleaving:
the synchronous head followed by the continuation selected by the
outcome. -/
def handleSendMessage (s : ChatState) (content : String) (outcome : TurnOutcome) : ChatState :=
  match outcome with
  | TurnOutcome.success resp => applyChatResponse (appendUserAndLoad s content) resp
  | TurnOutcome.failure msg => applyChatError (appendUserAndLoad s content) msg

/-- `handleNewChat`: reset messages to the welcome message, clear plan,
sources, conversation id and the initial-goal latch.  The loading flag
is not touched. -/
def handleNewChat (s : ChatState) : ChatState :=
  { s with
    messages := [WELCOME_MESSAGE]
    currentPlan := none
    sources := []
    conversationId := none
    initialGoalProcessed := false }

/-- `handleSubmit` in the message input component: invoke the send
callback with the trimmed input only when the trimmed input is nonempty
and the input is not disabled (`disabled` is wired to `isLoading` by the
chat panel); `some` is the sent content, `none` means no send. -/
def handleSubmit (input : String) (disabled : Bool) : Option String :=
  if input.trim ≠ "" ∧ disabled = false then some input.trim else none

/-! ## Job types and the poller (API client) -/

inductive JobStatus where
  | pending
  | processing
  | completed
  | failed
deriving DecidableEq, Repr

/-- A job snapshot as fetched from the backend.  The `result` field is
the cast-to-`ChatResponse` payload of a completed job; the optional
timestamp and progress-message fields are omitted as inert. -/
structure JobResponse where
  id : String
  job_type : String
  status : JobStatus
  result : Option ChatResponse
  error : Option String
  progress : Nat
deriving DecidableEq, Repr

/-- The `details` payloads the poller attaches to the errors it builds. -/
inductive APIErrorDetails where
  | jobError (job_id : String) (error : Option String)
  | timeoutInfo (job_id : String) (max_wait_time : Nat)
deriving DecidableEq, Repr

/-- The structured error raised by the API client: message, HTTP-like
status and an optional details payload. -/
structure APIError where
  message : String
  status : Nat
  details : Option APIErrorDetails
deriving DecidableEq, Repr

/-- The error built for a completed job carrying no result. -/
def completedNoResultError : APIError :=
  { message := "Job completed but no result returned", status := 500, details := none }

/-- The error built for a job whose status is failed. -/
def failedJobError (jobId : String) (err : Option String) : APIError :=
  { message := jsOrString err "Chat job failed"
    status := 500
    details := some (APIErrorDetails.jobError jobId err) }

/-- The error built when the polling deadline passes. -/
def timeoutErrorFor (jobId : String) (maxWaitTime : Nat) : APIError :=
  { message := "Chat job polling timeout"
    status := 504
    details := some (APIErrorDetails.timeoutInfo jobId maxWaitTime) }

/-- The outcome of one status fetch: either a snapshot, or the
structured error the transport layer raised. -/
inductive FetchOutcome where
  | ok (job : JobResponse)
  | failed (e : APIError)
deriving DecidableEq, Repr

deriving instance DecidableEq for Except

/-- What a run of the poller produces: how the promise settled, the
snapshots passed to the progress callback (in call order, finalized at
the moment the promise settles), and the elapsed time at settlement. -/
structure PollResult where
  outcome : Except APIError ChatResponse
  progressCalls : List JobResponse
  settleTime : Nat
deriving DecidableEq, Repr

/-- The polling loop of `waitForChatJob`.  `fetches k` is the outcome of
the `k`-th status fetch; fetches are modelled as instantaneous, so the
elapsed time grows only by `pollInterval` at each sleep.  A 404 fetch
failure sleeps and retries; any other fetch failure settles the promise
with that error.  On a snapshot, the progress callback is recorded
(when supplied), then a completed status settles with the result or
with `completedNoResultError` when the result is absent, a failed
status settles with `failedJobError`, and otherwise the loop sleeps and
retries.  When the elapsed time reaches `maxWaitTime` the loop exits
and settles with the timeout error. -/
def pollLoop (fetches : Nat → FetchOutcome) (jobId : String)
    (maxWaitTime pollInterval : Nat) (hp : 0 < pollInterval) (hasOnProgress : Bool)
    (k : Nat) (elapsed : Nat) (calls : List JobResponse) : PollResult :=
  if _h : elapsed < maxWaitTime then
    match fetches k with
    | FetchOutcome.failed e =>
        if e.status = 404 then
          pollLoop fetches jobId maxWaitTime pollInterval hp hasOnProgress
            (k + 1) (elapsed + pollInterval) calls
        else
          { outcome := Except.error e, progressCalls := calls, settleTime := elapsed }
    | FetchOutcome.ok job =>
        let calls2 := if hasOnProgress then calls ++ [job] else calls
        match job.status with
        | JobStatus.completed =>
            match job.result with
            | none =>
                { outcome := Except.error completedNoResultError
                  progressCalls := calls2, settleTime := elapsed }
            | some r =>
                { outcome := Except.ok r, progressCalls := calls2, settleTime := elapsed }
        | JobStatus.failed =>
            { outcome := Except.error (failedJobError jobId job.error)
              progressCalls := calls2, settleTime := elapsed }
        | JobStatus.pending =>
            pollLoop fetches jobId maxWaitTime pollInterval hp hasOnProgress
              (k + 1) (elapsed + pollInterval) calls2
        | JobStatus.processing =>
            pollLoop fetches jobId maxWaitTime pollInterval hp hasOnProgress
              (k + 1) (elapsed + pollInterval) calls2
  else
    { outcome := Except.error (timeoutErrorFor jobId maxWaitTime)
      progressCalls := calls, settleTime := elapsed }
termination_by maxWaitTime - elapsed
decreasing_by
  all_goals omega

/-- The options record of `waitForChatJob`; absent and zero numeric
options fall back to the defaults through JavaScript truthiness. -/
structure WaitOptions where
  maxWaitTime : Option Nat
  pollInterval : Option Nat
  hasOnProgress : Bool
deriving DecidableEq, Repr

/-- `waitForChatJob`: resolve the defaulted options (10 minutes and 5
seconds) and run the polling loop from time zero. -/
def waitForChatJob (jobId : String) (opts : WaitOptions)
    (fetches : Nat → FetchOutcome) : PollResult :=
  pollLoop fetches jobId (jsOrNat opts.maxWaitTime 600000) (jsOrNat opts.pollInterval 5000)
    (jsOrNat_pos opts.pollInterval 5000 (by omega)) opts.hasOnProgress 0 0 []

/-- A stream of fetch outcomes read off a finite trace; past the end of
the trace every further fetch is a benign 404 (the trace-exhausted
default never matters for runs that settle inside the trace). -/
def fetchesOfList (l : List FetchOutcome) : Nat → FetchOutcome :=
  fun k => l.getD k (FetchOutcome.failed { message := "API error: 404", status := 404, details := none })

/-! ## Concrete fixtures used by witnesses and counterexamples -/

def srcA : SearchResult :=
  { chunk_id := "c1", source_document_id := "d1", source_title := "Doc one", text := "first text" }

/-- Same `chunk_id` as `srcA`, different content. -/
def srcA2 : SearchResult :=
  { chunk_id := "c1", source_document_id := "d2", source_title := "Doc two", text := "second text" }

def srcB : SearchResult :=
  { chunk_id := "c2", source_document_id := "d3", source_title := "Doc three", text := "third text" }

def samplePlan : OPALPlan :=
  { goal_summary := "grow a strain"
    assumptions := []
    steps := []
    open_questions := []
    risks_and_alternatives := []
    created_at := none }

def sampleResponse : ChatResponse :=
  { message := "Here is a plan", conversation_id := "conv1", plan := none, sources := [] }

def richResponse : ChatResponse :=
  { message := "Here is a plan", conversation_id := "conv1", plan := some samplePlan
    sources := [srcA] }

def pendingJob : JobResponse :=
  { id := "j1", job_type := "chat", status := JobStatus.pending, result := none
    error := none, progress := 0 }

def processingJob : JobResponse :=
  { id := "j1", job_type := "chat", status := JobStatus.processing, result := none
    error := none, progress := 40 }

def completedJob (r : ChatResponse) : JobResponse :=
  { id := "j1", job_type := "chat", status := JobStatus.completed, result := some r
    error := none, progress := 100 }

/-- A completed snapshot with no result payload. -/
def noResultJob : JobResponse :=
  { id := "j1", job_type := "chat", status := JobStatus.completed, result := none
    error := none, progress := 100 }

def err404 : APIError :=
  { message := "API error: 404", status := 404, details := none }

def defaultOptsProgress : WaitOptions :=
  { maxWaitTime := none, pollInterval := none, hasOnProgress := true }

def defaultOptsNoProgress : WaitOptions :=
  { maxWaitTime := none, pollInterval := none, hasOnProgress := false }

/-! ## Helper lemmas -/

/-- Merging into an empty accumulated list keeps the incoming list as is. -/
theorem mergeSources_nil_left (l : List SearchResult) : mergeSources [] l = l := by
  simp [mergeSources]

/-- Deadline bound for the polling loop, by induction on the remaining
time budget: a run entered with `elapsed < maxWaitTime + pollInterval`
settles strictly before `maxWaitTime + pollInterval`, and either it
settles before the deadline or it settles with the timeout error. -/
theorem pollLoop_deadline_bound (fetches : Nat → FetchOutcome) (jobId : String)
    (maxWaitTime pollInterval : Nat) (hp : 0 < pollInterval) (hop : Bool) :
    ∀ (n k elapsed : Nat) (calls : List JobResponse),
      maxWaitTime - elapsed ≤ n → elapsed < maxWaitTime + pollInterval →
      (pollLoop fetches jobId maxWaitTime pollInterval hp hop k elapsed calls).settleTime
          < maxWaitTime + pollInterval ∧
      ((pollLoop fetches jobId maxWaitTime pollInterval hp hop k elapsed calls).settleTime
          < maxWaitTime ∨
        (pollLoop fetches jobId maxWaitTime pollInterval hp hop k elapsed calls).outcome
          = Except.error (timeoutErrorFor jobId maxWaitTime)) := by
  intro n
  induction n with
  | zero =>
    intro k elapsed calls hn hub
    have hge : ¬ elapsed < maxWaitTime := by omega
    rw [pollLoop]
    simp [hge]
    omega
  | succ n ih =>
    intro k elapsed calls hn hub
    by_cases hlt : elapsed < maxWaitTime
    · rw [pollLoop]
      cases hf : fetches k with
      | failed e =>
        by_cases h404 : e.status = 404
        · simp [hlt, hf, h404]
          exact ih (k + 1) (elapsed + pollInterval) calls (by omega) (by omega)
        · simp [hlt, hf, h404]
          omega
      | ok job =>
        cases hs : job.status with
        | completed =>
          cases hr : job.result with
          | none => simp [hlt, hf, hs, hr]; omega
          | some r => simp [hlt, hf, hs, hr]; omega
        | failed => simp [hlt, hf, hs]; omega
        | pending =>
          simp [hlt, hf, hs]
          exact ih (k + 1) (elapsed + pollInterval) _ (by omega) (by omega)
        | processing =>
          simp [hlt, hf, hs]
          exact ih (k + 1) (elapsed + pollInterval) _ (by omega) (by omega)
    · rw [pollLoop]
      simp [hlt]
      omega

/-! ## Claims about the conversation state controller -/

/-- C1 counterexample: the claim states that after `handleNewChat` the
state remains at `{messages := [welcome], plan := none, sources := []}`
no matter when a stale poll resolves, because a conversation-identifier
check discards the late result.  No such check exists in
`handleSendMessage`: at the concrete input below, a turn submitted from
the initial state, reset by `handleNewChat`, and then resolved late,
leaves the transcript different from `[WELCOME_MESSAGE]`. -/
theorem staleResult_merge_after_reset_cex :
    (applyChatResponse (handleNewChat (appendUserAndLoad initialChatState "goal"))
        sampleResponse).messages ≠ [WELCOME_MESSAGE] := by
  simp [applyChatResponse, handleNewChat, appendUserAndLoad, sampleResponse]

/-- C1 (amended): the success continuation of `handleSendMessage`
performs no conversation-identifier check, so a turn whose poll settles
after `handleNewChat` is merged into the reset conversation: the
transcript becomes the welcome message followed by the stale assistant
message, the stale plan and conversation id are installed when present,
and the stale sources (deduplicated against the now-empty accumulated
list) become the source list. -/
theorem staleResult_is_merged_after_reset (s : ChatState) (content : String)
    (resp : ChatResponse) :
    (applyChatResponse (handleNewChat (appendUserAndLoad s content)) resp).messages
        = [WELCOME_MESSAGE, { role := Role.assistant, content := resp.message }]
  ∧ (resp.sources.length > 0 →
      (applyChatResponse (handleNewChat (appendUserAndLoad s content)) resp).sources
        = resp.sources)
  ∧ (∀ p, resp.plan = some p →
      (applyChatResponse (handleNewChat (appendUserAndLoad s content)) resp).currentPlan
        = some p)
  ∧ (resp.conversation_id ≠ "" →
      (applyChatResponse (handleNewChat (appendUserAndLoad s content)) resp).conversationId
        = some resp.conversation_id) := by
  refine ⟨?_, ?_, ?_, ?_⟩
  · simp [applyChatResponse, handleNewChat, appendUserAndLoad]
  · intro hlen
    simp [applyChatResponse, handleNewChat, appendUserAndLoad, hlen, mergeSources_nil_left]
  · intro p hp
    simp [applyChatResponse, handleNewChat, appendUserAndLoad, hp]
  · intro hid
    simp [applyChatResponse, handleNewChat, appendUserAndLoad, hid]

/-- C1 witness: the amended theorem applied at a concrete stale
response carrying a message, a plan, a source and a conversation id. -/
theorem staleResult_is_merged_after_reset_witness :
    (applyChatResponse (handleNewChat (appendUserAndLoad initialChatState "goal"))
        richResponse).sources = richResponse.sources
  ∧ (applyChatResponse (handleNewChat (appendUserAndLoad initialChatState "goal"))
        richResponse).currentPlan = some samplePlan
  ∧ (applyChatResponse (handleNewChat (appendUserAndLoad initialChatState "goal"))
        richResponse).conversationId = some "conv1" := by
  refine ⟨?_, ?_, ?_⟩
  · exact (staleResult_is_merged_after_reset initialChatState "goal" richResponse).2.1
      (by simp [richResponse])
  · exact (staleResult_is_merged_after_reset initialChatState "goal" richResponse).2.2.1
      samplePlan (by simp [richResponse])
  · exact (staleResult_is_merged_after_reset initialChatState "goal" richResponse).2.2.2
      (by simp [richResponse])

/-- C6 counterexample: the claim states that a call to
`handleSendMessage` made while `isLoading` is true appends no user
message.  At the concrete input below the flag is true and the call
still appends (the transcript changes), because `handleSendMessage`
itself performs no loading check. -/
theorem handleSendMessage_while_loading_cex :
    ({ initialChatState with isLoading := true } : ChatState).isLoading = true
  ∧ (handleSendMessage { initialChatState with isLoading := true } "hi"
        (TurnOutcome.failure none)).messages
      ≠ ({ initialChatState with isLoading := true } : ChatState).messages := by
  constructor
  · rfl
  · simp [handleSendMessage, applyChatError, appendUserAndLoad, initialChatState]

/-- C6 (amended): `handleSendMessage` itself performs no `isLoading`
check; the serialization guard lives in the message input component:
`handleSubmit` never invokes the send callback while `disabled` (wired
to `isLoading`) is true, so no user-initiated turn starts while one is
in flight. -/
theorem handleSubmit_no_send_while_disabled (input : String) :
    handleSubmit input true = none := by
  simp [handleSubmit]

/-- C7: every turn, successful or failed, grows the transcript by
exactly two messages: the user message first, then exactly one
assistant message. -/
theorem handleSendMessage_appends_exactly_two (s : ChatState) (content : String)
    (outcome : TurnOutcome) :
    ∃ reply : String,
      (handleSendMessage s content outcome).messages =
        s.messages ++ [{ role := Role.user, content := content },
          { role := Role.assistant, content := reply }]
      ∧ (handleSendMessage s content outcome).messages.length = s.messages.length + 2 := by
  cases outcome with
  | success resp =>
    refine ⟨resp.message, ?_, ?_⟩
    · simp [handleSendMessage, applyChatResponse, appendUserAndLoad]
    · simp [handleSendMessage, applyChatResponse, appendUserAndLoad]
  | failure msg =>
    refine ⟨errorMessageContent msg, ?_, ?_⟩
    · simp [handleSendMessage, applyChatError, appendUserAndLoad]
    · simp [handleSendMessage, applyChatError, appendUserAndLoad]

/-- C8: a failed turn leaves plan, sources and conversation id
untouched; beyond the synchronously appended user message it appends
exactly one assistant message whose content is the failure message when
present and truthy, and the generic fallback when absent or empty; and
the loading flag is false after every outcome. -/
theorem handleSendMessage_failure_frame (s : ChatState) (content : String)
    (msg : Option String) :
    (handleSendMessage s content (TurnOutcome.failure msg)).messages
        = s.messages ++ [{ role := Role.user, content := content },
            { role := Role.assistant, content := errorMessageContent msg }]
  ∧ (handleSendMessage s content (TurnOutcome.failure msg)).currentPlan = s.currentPlan
  ∧ (handleSendMessage s content (TurnOutcome.failure msg)).sources = s.sources
  ∧ (handleSendMessage s content (TurnOutcome.failure msg)).conversationId = s.conversationId
  ∧ (∀ m, msg = some m → m ≠ "" → errorMessageContent msg = m)
  ∧ (msg = none → errorMessageContent msg = FALLBACK_ERROR_CONTENT)
  ∧ (msg = some "" → errorMessageContent msg = FALLBACK_ERROR_CONTENT)
  ∧ (∀ outcome, (handleSendMessage s content outcome).isLoading = false) := by
  refine ⟨?_, ?_, ?_, ?_, ?_, ?_, ?_, ?_⟩
  · simp [handleSendMessage, applyChatError, appendUserAndLoad]
  · simp [handleSendMessage, applyChatError, appendUserAndLoad]
  · simp [handleSendMessage, applyChatError, appendUserAndLoad]
  · simp [handleSendMessage, applyChatError, appendUserAndLoad]
  · intro m hm hne
    simp [errorMessageContent, jsOrString, hm, hne]
  · intro hm
    simp [errorMessageContent, jsOrString, hm]
  · intro hm
    simp [errorMessageContent, jsOrString, hm]
  · intro outcome
    cases outcome with
    | success resp => simp [handleSendMessage, applyChatResponse, appendUserAndLoad]
    | failure m => simp [handleSendMessage, applyChatError, appendUserAndLoad]

/-- C8 witness: the frame theorem applied at a concrete failed turn. -/
theorem handleSendMessage_failure_frame_witness :
    errorMessageContent (some "boom") = "boom"
  ∧ errorMessageContent none = FALLBACK_ERROR_CONTENT
  ∧ (handleSendMessage initialChatState "hi" (TurnOutcome.failure (some "boom"))).currentPlan
      = none := by
  refine ⟨?_, ?_, ?_⟩
  · exact (handleSendMessage_failure_frame initialChatState "hi" (some "boom")).2.2.2.2.1
      "boom" rfl (by decide)
  · exact (handleSendMessage_failure_frame initialChatState "hi" none).2.2.2.2.2.1 rfl
  · have h := (handleSendMessage_failure_frame initialChatState "hi" (some "boom")).2.1
    simpa [initialChatState] using h

/-- C9: source merging is first-write-wins keyed by `chunk_id`:
re-merging a list whose `chunk_id`s are all already present leaves the
accumulated list unchanged; for a `chunk_id` already present, the first
entry found is the pre-existing one (never updated); and the merged
list is the old list followed by exactly the incoming entries whose
`chunk_id` was not yet present. -/
theorem mergeSources_first_write_wins (prev incoming : List SearchResult) :
    ((∀ s, s ∈ incoming → s.chunk_id ∈ prev.map (fun t => t.chunk_id)) →
        mergeSources prev incoming = prev)
  ∧ (∀ c, c ∈ prev.map (fun t => t.chunk_id) →
        (mergeSources prev incoming).find? (fun t => t.chunk_id == c)
          = prev.find? (fun t => t.chunk_id == c))
  ∧ (∃ tail, mergeSources prev incoming = prev ++ tail ∧
        ∀ s, s ∈ tail → s ∈ incoming ∧ s.chunk_id ∉ prev.map (fun t => t.chunk_id)) := by
  refine ⟨?_, ?_, ?_⟩
  · intro hall
    simp [mergeSources]
    intro a ha
    rcases List.mem_map.mp (hall a ha) with ⟨x, hx, hxc⟩
    exact ⟨x, hx, hxc⟩
  · intro c hc
    have hsome : (prev.find? (fun t => t.chunk_id == c)).isSome := by
      rw [List.find?_isSome]
      rcases List.mem_map.mp hc with ⟨x, hx, hxc⟩
      exact ⟨x, hx, by simp [hxc]⟩
    rcases Option.isSome_iff_exists.mp hsome with ⟨y, hy⟩
    simp [mergeSources, List.find?_append, hy]
  · refine ⟨incoming.filter
        (fun s => ! (prev.map (fun t => t.chunk_id)).contains s.chunk_id), ?_, ?_⟩
    · rfl
    intro s hs
    have hmem := List.mem_filter.mp hs
    refine ⟨hmem.1, ?_⟩
    simpa using hmem.2

/-- C9 witness: the merge theorem applied at concrete lists: re-merging
an already-present `chunk_id` is a no-op, and an incoming source with a
fresh `chunk_id` does not displace the existing entry under lookup. -/
theorem mergeSources_first_write_wins_witness :
    mergeSources [srcA] [srcA2] = [srcA]
  ∧ (mergeSources [srcA] [srcB]).find? (fun t => t.chunk_id == "c1") = some srcA := by
  constructor
  · exact (mergeSources_first_write_wins [srcA] [srcA2]).1
      (by intro s hs; simp [srcA2] at hs; simp [hs, srcA, srcA2])
  · have h := (mergeSources_first_write_wins [srcA] [srcB]).2.1 "c1" (by simp [srcA])
    rw [h]
    simp [srcA, List.find?]

/-- C10: deduplication is applied only against the previously
accumulated list, not within a single result: two incoming entries
sharing a fresh `chunk_id` are both appended, so the accumulated list
can hold duplicate `chunk_id`s — shown universally and at a concrete
pair of distinct entries with equal `chunk_id`s. -/
theorem mergeSources_intra_response_duplicates :
    (∀ (prev : List SearchResult) (a b : SearchResult),
        a.chunk_id = b.chunk_id → a.chunk_id ∉ prev.map (fun t => t.chunk_id) →
        mergeSources prev [a, b] = prev ++ [a, b])
  ∧ mergeSources [] [srcA, srcA2] = [srcA, srcA2]
  ∧ srcA.chunk_id = srcA2.chunk_id
  ∧ srcA ≠ srcA2
  ∧ (mergeSources [] [srcA, srcA2]).map (fun t => t.chunk_id) = ["c1", "c1"]
  ∧ ¬ ((mergeSources [] [srcA, srcA2]).map (fun t => t.chunk_id)).Nodup := by
  refine ⟨?_, ?_, ?_, ?_, ?_, ?_⟩
  · intro prev a b hab hfresh
    have ha : ∀ x ∈ prev, ¬ x.chunk_id = a.chunk_id := by
      intro x hx hcontra
      exact hfresh (List.mem_map.mpr ⟨x, hx, hcontra⟩)
    simp [mergeSources]
    exact ⟨ha, fun x hx => by rw [← hab]; exact ha x hx⟩
  · simp [mergeSources_nil_left]
  · rfl
  · decide
  · simp [mergeSources_nil_left, srcA, srcA2]
  · simp [mergeSources_nil_left, srcA, srcA2]

/-- C10 witness: both same-`chunk_id` entries are appended past a
nonempty accumulated list that does not hold their `chunk_id`. -/
theorem mergeSources_intra_response_duplicates_witness :
    mergeSources [srcB] [srcA, srcA2] = [srcB, srcA, srcA2] := by
  have h := (mergeSources_intra_response_duplicates).1 [srcB] srcA srcA2 rfl
    (by simp [srcA, srcB])
  simpa using h

/-! ## Claims about the job poller -/

/-- C2 counterexample: the claim states that for the fetched snapshot
sequence `[pending, processing, completed(result=R)]` the progress
callback fires exactly twice; the code invokes the callback on every
fetched snapshot, terminal ones included, so at this concrete run it
fires three times. -/
theorem waitForChatJob_onProgress_terminal_cex :
    ¬ ((waitForChatJob "j1" defaultOptsProgress
        (fetchesOfList [FetchOutcome.ok pendingJob, FetchOutcome.ok processingJob,
          FetchOutcome.ok (completedJob sampleResponse)])).progressCalls.length = 2) := by
  simp [waitForChatJob, defaultOptsProgress, jsOrNat, pollLoop, fetchesOfList,
    pendingJob, processingJob, completedJob]

/-- C2 (amended): the progress callback is invoked exactly once per
fetched snapshot, terminal snapshots included: for
`[pending, processing, completed(result=R)]` it is invoked three times
(in fetch order) and the poller resolves with `R`; when the very first
snapshot is already terminal it is invoked once.  The recorded call
list is finalized when the promise settles, so the callback is never
invoked afterwards. -/
theorem waitForChatJob_onProgress_per_snapshot :
    waitForChatJob "j1" defaultOptsProgress
        (fetchesOfList [FetchOutcome.ok pendingJob, FetchOutcome.ok processingJob,
          FetchOutcome.ok (completedJob sampleResponse)]) =
      { outcome := Except.ok sampleResponse
        progressCalls := [pendingJob, processingJob, completedJob sampleResponse]
        settleTime := 10000 }
  ∧ (waitForChatJob "j1" defaultOptsProgress
        (fetchesOfList [FetchOutcome.ok (completedJob sampleResponse)])).progressCalls.length
      = 1 := by
  constructor
  · simp [waitForChatJob, defaultOptsProgress, jsOrNat, pollLoop, fetchesOfList,
      pendingJob, processingJob, completedJob]
  · simp [waitForChatJob, defaultOptsProgress, jsOrNat, pollLoop, fetchesOfList,
      completedJob]

/-- C3: on a fetched snapshot inside the poll window, a completed
status with no result settles the poller with the status-500
invalid-terminal-state error (`completedNoResultError`, which carries
no details payload); a failed status settles it with the status-500
error carrying the job error text or its generic fallback and the
`{job_id, error}` details; a completed status with a result resolves
with that result; and the invalid-terminal-state error is distinct from
every failed-status error. -/
theorem pollLoop_terminal_snapshot_classification (fetches : Nat → FetchOutcome)
    (jobId : String) (maxWaitTime pollInterval : Nat) (hp : 0 < pollInterval) (hop : Bool)
    (k elapsed : Nat) (calls : List JobResponse) (job : JobResponse)
    (helapsed : elapsed < maxWaitTime) (hfetch : fetches k = FetchOutcome.ok job) :
    (job.status = JobStatus.completed → job.result = none →
      pollLoop fetches jobId maxWaitTime pollInterval hp hop k elapsed calls =
        { outcome := Except.error completedNoResultError
          progressCalls := if hop then calls ++ [job] else calls
          settleTime := elapsed })
  ∧ (∀ r, job.status = JobStatus.completed → job.result = some r →
      pollLoop fetches jobId maxWaitTime pollInterval hp hop k elapsed calls =
        { outcome := Except.ok r
          progressCalls := if hop then calls ++ [job] else calls
          settleTime := elapsed })
  ∧ (job.status = JobStatus.failed →
      pollLoop fetches jobId maxWaitTime pollInterval hp hop k elapsed calls =
        { outcome := Except.error (failedJobError jobId job.error)
          progressCalls := if hop then calls ++ [job] else calls
          settleTime := elapsed })
  ∧ (∀ (jid : String) (err : Option String),
      completedNoResultError ≠ failedJobError jid err) := by
  refine ⟨?_, ?_, ?_, ?_⟩
  · intro hs hr
    rw [pollLoop]
    simp [helapsed, hfetch, hs, hr]
  · intro r hs hr
    rw [pollLoop]
    simp [helapsed, hfetch, hs, hr]
  · intro hs
    rw [pollLoop]
    simp [helapsed, hfetch, hs]
  · intro jid err
    simp [completedNoResultError, failedJobError]

/-- C3 witness: the classification applied at time zero of a run whose
first snapshot is completed-without-result, then at a run whose first
snapshot is failed, exhibiting the two distinct rejections. -/
theorem pollLoop_terminal_snapshot_classification_witness :
    pollLoop (fetchesOfList [FetchOutcome.ok noResultJob]) "j1" 600000 5000 (by omega)
        true 0 0 [] =
      { outcome := Except.error completedNoResultError
        progressCalls := [noResultJob]
        settleTime := 0 }
  ∧ completedNoResultError ≠ failedJobError "j1" none := by
  constructor
  · have h := (pollLoop_terminal_snapshot_classification
      (fetchesOfList [FetchOutcome.ok noResultJob]) "j1" 600000 5000 (by omega)
      true 0 0 [] noResultJob (by omega) (by simp [fetchesOfList])).1 rfl rfl
    simpa using h
  · exact (pollLoop_terminal_snapshot_classification
      (fetchesOfList [FetchOutcome.ok noResultJob]) "j1" 600000 5000 (by omega)
      true 0 0 [] noResultJob (by omega) (by simp [fetchesOfList])).2.2.2 "j1" none

/-- C4: a 404 fetch failure inside the poll window is recovered
locally — the loop sleeps one interval and retries, with the call
record unchanged; any fetch failure with another status settles the
poller with exactly that error at once; and the concrete fetch-outcome
run `[404, 404, completed(result=R)]` resolves with `R` for every job
id and result, without surfacing the 404s. -/
theorem pollLoop_notFound_recovery (fetches : Nat → FetchOutcome) (jobId : String)
    (maxWaitTime pollInterval : Nat) (hp : 0 < pollInterval) (hop : Bool)
    (k elapsed : Nat) (calls : List JobResponse) (e : APIError)
    (helapsed : elapsed < maxWaitTime) (hfetch : fetches k = FetchOutcome.failed e) :
    (e.status = 404 →
      pollLoop fetches jobId maxWaitTime pollInterval hp hop k elapsed calls =
        pollLoop fetches jobId maxWaitTime pollInterval hp hop
          (k + 1) (elapsed + pollInterval) calls)
  ∧ (e.status ≠ 404 →
      pollLoop fetches jobId maxWaitTime pollInterval hp hop k elapsed calls =
        { outcome := Except.error e, progressCalls := calls, settleTime := elapsed })
  ∧ (∀ (jid : String) (r : ChatResponse),
      waitForChatJob jid defaultOptsNoProgress
          (fetchesOfList [FetchOutcome.failed err404, FetchOutcome.failed err404,
            FetchOutcome.ok (completedJob r)]) =
        { outcome := Except.ok r, progressCalls := [], settleTime := 10000 }) := by
  refine ⟨?_, ?_, ?_⟩
  · intro h404
    rw [pollLoop]
    simp [helapsed, hfetch, h404]
  · intro h404
    rw [pollLoop]
    simp [helapsed, hfetch, h404]
  · intro jid r
    simp [waitForChatJob, defaultOptsNoProgress, jsOrNat, pollLoop, fetchesOfList,
      err404, completedJob]

/-- C4 witness: the recovery theorem applied at a concrete 404 failure
and at a concrete job id and result for the end-to-end run. -/
theorem pollLoop_notFound_recovery_witness :
    pollLoop (fetchesOfList [FetchOutcome.failed err404]) "j1" 600000 5000 (by omega)
        false 0 0 [] =
      pollLoop (fetchesOfList [FetchOutcome.failed err404]) "j1" 600000 5000 (by omega)
        false 1 5000 []
  ∧ waitForChatJob "j1" defaultOptsNoProgress
        (fetchesOfList [FetchOutcome.failed err404, FetchOutcome.failed err404,
          FetchOutcome.ok (completedJob sampleResponse)]) =
      { outcome := Except.ok sampleResponse, progressCalls := [], settleTime := 10000 } := by
  constructor
  · exact (pollLoop_notFound_recovery (fetchesOfList [FetchOutcome.failed err404]) "j1"
      600000 5000 (by omega) false 0 0 [] err404 (by omega)
      (by simp [fetchesOfList])).1 rfl
  · exact (pollLoop_notFound_recovery (fetchesOfList [FetchOutcome.failed err404]) "j1"
      600000 5000 (by omega) false 0 0 [] err404 (by omega)
      (by simp [fetchesOfList])).2.2 "j1" sampleResponse

/-- C5: with fetches modelled as instantaneous, every run of
`waitForChatJob` settles strictly before `maxWaitTime + pollInterval`
(options resolved through their defaults); it either settles before the
deadline or settles with the status-504 timeout error carrying the job
id and the resolved maximum wait; and it never resolves with a value
at or past the deadline. -/
theorem waitForChatJob_settles_by_deadline (jobId : String) (opts : WaitOptions)
    (fetches : Nat → FetchOutcome) :
    (waitForChatJob jobId opts fetches).settleTime
        < jsOrNat opts.maxWaitTime 600000 + jsOrNat opts.pollInterval 5000
  ∧ ((waitForChatJob jobId opts fetches).settleTime < jsOrNat opts.maxWaitTime 600000
      ∨ (waitForChatJob jobId opts fetches).outcome
          = Except.error (timeoutErrorFor jobId (jsOrNat opts.maxWaitTime 600000)))
  ∧ (∀ r, (waitForChatJob jobId opts fetches).outcome = Except.ok r →
      (waitForChatJob jobId opts fetches).settleTime < jsOrNat opts.maxWaitTime 600000) := by
  have hpi : 0 < jsOrNat opts.pollInterval 5000 := jsOrNat_pos opts.pollInterval 5000 (by omega)
  have hb := pollLoop_deadline_bound fetches jobId (jsOrNat opts.maxWaitTime 600000)
    (jsOrNat opts.pollInterval 5000) hpi opts.hasOnProgress
    (jsOrNat opts.maxWaitTime 600000) 0 0 [] (by omega) (by omega)
  have heq : waitForChatJob jobId opts fetches =
      pollLoop fetches jobId (jsOrNat opts.maxWaitTime 600000)
        (jsOrNat opts.pollInterval 5000) hpi opts.hasOnProgress 0 0 [] := rfl
  rw [heq]
  refine ⟨hb.1, hb.2, ?_⟩
  intro r hr
  rcases hb.2 with hlt | herr
  · exact hlt
  · rw [hr] at herr
    exact absurd herr (by simp)

/-- C5 witness: the deadline theorem applied at a run that resolves at
once, discharging the resolution hypothesis concretely. -/
theorem waitForChatJob_settles_by_deadline_witness :
    (waitForChatJob "j1" defaultOptsProgress
        (fetchesOfList [FetchOutcome.ok (completedJob sampleResponse)])).settleTime
      < 600000 := by
  have h := (waitForChatJob_settles_by_deadline "j1" defaultOptsProgress
    (fetchesOfList [FetchOutcome.ok (completedJob sampleResponse)])).2.2 sampleResponse
    (by simp [waitForChatJob, defaultOptsProgress, jsOrNat, pollLoop, fetchesOfList,
      completedJob])
  simpa [defaultOptsProgress, jsOrNat] using h
